import Mathlib

/-!
# Verification of the data-analysis chat pipeline

A shallow embedding of the generate-then-execute-then-explain pipeline of the
data-analysis chat agent (the chainlit handler) together with the credential
handling of the email-responder variant, and proofs of the behavioural
properties claimed for them.

External collaborators (the pandas library, the completion service, CPython
byte-level exec semantics, the file parsers) are modelled as explicit
parameters or as rendering functions whose exact glyphs are immaterial to the
properties, as noted at each definition.
-/

namespace RetailAgent

/-! ## String utilities modelling the Python primitives used by the source -/

/-- Characters treated as whitespace by the model of Python str.strip. -/
def isSpaceChar (c : Char) : Bool :=
  c == ' ' || c == '\t' || c == '\n' || c == '\r'

/-- Model of Python str.strip(): drop leading and trailing whitespace. -/
def pyStrip (s : String) : String :=
  ⟨((s.toList.dropWhile isSpaceChar).reverse.dropWhile isSpaceChar).reverse⟩

/-- Model of Python str.lower() (ASCII-adequate for the filenames and
commands compared in the source). -/
def pyLower (s : String) : String :=
  ⟨s.toList.map Char.toLower⟩

/-- Model of Python str.join: joinSep sep [a, b, c] = a ++ sep ++ b ++ sep ++ c. -/
def joinSep (sep : String) : List String → String
  | [] => ""
  | [s] => s
  | s :: t :: rest => s ++ sep ++ joinSep sep (t :: rest)

/-- Bool test: pat is an initial segment of l (character lists). -/
def leadsWith : List Char → List Char → Bool
  | [], _ => true
  | _ :: _, [] => false
  | a :: as, b :: bs => a == b && leadsWith as bs

/-- Bool test: pat occurs contiguously inside l (character lists). -/
def containsList (pat : List Char) : List Char → Bool
  | [] => pat.isEmpty
  | c :: rest => leadsWith pat (c :: rest) || containsList pat rest

/-- Model of the Python substring test pat in s. -/
def containsSubstr (pat s : String) : Bool :=
  containsList pat.toList s.toList

/-- Prop form: needle occurs as a contiguous substring of hay. -/
def Substr (needle hay : String) : Prop :=
  ∃ l r : List Char, hay.toList = l ++ needle.toList ++ r

/-- Model of Python str.endswith: s ends with pat. -/
def strEndsWith (s pat : String) : Bool :=
  leadsWith pat.toList.reverse s.toList.reverse

theorem toList_append (a b : String) : (a ++ b).toList = a.toList ++ b.toList := rfl

theorem leadsWith_iff (p : List Char) : ∀ l, leadsWith p l = true ↔ ∃ t, l = p ++ t := by
  induction p with
  | nil =>
    intro l
    simp [leadsWith]
  | cons a as ih =>
    intro l
    cases l with
    | nil =>
      simp [leadsWith]
    | cons b bs =>
      simp only [leadsWith, Bool.and_eq_true, beq_iff_eq]
      constructor
      · rintro ⟨hab, h⟩
        obtain ⟨t, rfl⟩ := (ih bs).1 h
        subst hab
        exact ⟨t, rfl⟩
      · rintro ⟨t, ht⟩
        rw [List.cons_append] at ht
        injection ht with h1 h2
        exact ⟨h1.symm, (ih bs).2 ⟨t, h2⟩⟩

theorem containsList_iff (p : List Char) (l : List Char) :
    containsList p l = true ↔ ∃ s t, l = s ++ p ++ t := by
  induction l with
  | nil =>
    simp only [containsList]
    constructor
    · intro h
      have hp : p = [] := by
        cases p with
        | nil => rfl
        | cons a as => simp [List.isEmpty] at h
      exact ⟨[], [], by simp [hp]⟩
    · rintro ⟨s, t, h⟩
      have h' : s ++ p ++ t = [] := h.symm
      rw [List.append_eq_nil] at h'
      obtain ⟨h1, _⟩ := h'
      rw [List.append_eq_nil] at h1
      obtain ⟨_, hp⟩ := h1
      simp [hp, List.isEmpty]
  | cons c rest ih =>
    simp only [containsList, Bool.or_eq_true]
    constructor
    · rintro (h | h)
      · obtain ⟨t, ht⟩ := (leadsWith_iff p _).1 h
        exact ⟨[], t, by simpa using ht⟩
      · obtain ⟨s, t, ht⟩ := ih.1 h
        exact ⟨c :: s, t, by simp [ht]⟩
    · rintro ⟨s, t, ht⟩
      cases s with
      | nil =>
        left
        exact (leadsWith_iff p _).2 ⟨t, by simpa using ht⟩
      | cons a s' =>
        right
        simp only [List.cons_append, List.append_assoc] at ht
        injection ht with h1 h2
        exact ih.2 ⟨s', t, by simp [h2]⟩

theorem containsSubstr_iff (pat s : String) :
    containsSubstr pat s = true ↔ Substr pat s :=
  containsList_iff pat.toList s.toList

theorem strEndsWith_iff (s pat : String) :
    strEndsWith s pat = true ↔ ∃ t : List Char, s.toList = t ++ pat.toList := by
  unfold strEndsWith
  rw [leadsWith_iff]
  constructor
  · rintro ⟨t, ht⟩
    refine ⟨t.reverse, ?_⟩
    have h := congrArg List.reverse ht
    simpa [List.reverse_append] using h
  · rintro ⟨t, ht⟩
    refine ⟨t.reverse, ?_⟩
    rw [ht]
    simp [List.reverse_append]

theorem substr_self (s : String) : Substr s s :=
  ⟨[], [], by simp⟩

theorem substr_appendL (a : String) {n b : String} (h : Substr n b) : Substr n (a ++ b) := by
  obtain ⟨l, r, hb⟩ := h
  exact ⟨a.toList ++ l, r, by rw [toList_append, hb]; simp⟩

theorem substr_appendR (b : String) {n a : String} (h : Substr n a) : Substr n (a ++ b) := by
  obtain ⟨l, r, ha⟩ := h
  exact ⟨l, r ++ b.toList, by rw [toList_append, ha]; simp⟩

theorem substr_join {s : String} {l : List String} (sep : String) (h : s ∈ l) :
    Substr s (joinSep sep l) := by
  induction l with
  | nil => cases h
  | cons a t ih =>
    rcases List.mem_cons.1 h with rfl | hmem
    · cases t with
      | nil => exact substr_self s
      | cons b t' => exact substr_appendR _ (substr_appendR _ (substr_self s))
    · cases t with
      | nil => cases hmem
      | cons b t' => exact substr_appendL (a ++ sep) (ih hmem)

theorem find?_split {α : Type} (f : α → Bool) :
    ∀ (l : List α) (a : α), l.find? f = some a →
      f a = true ∧ ∃ l₁ l₂, l = l₁ ++ a :: l₂ ∧ ∀ b ∈ l₁, f b = false := by
  intro l
  induction l with
  | nil =>
    intro a h
    simp [List.find?] at h
  | cons c t ih =>
    intro a h
    by_cases hc : f c = true
    · rw [List.find?_cons_of_pos _ hc] at h
      have hca : c = a := Option.some.inj h
      subst hca
      exact ⟨hc, [], t, rfl, by intro b hb; cases hb⟩
    · have hc' : ¬ (f c = true) := hc
      rw [List.find?_cons_of_neg _ hc'] at h
      obtain ⟨hfa, l₁, l₂, heq, hall⟩ := ih a h
      refine ⟨hfa, c :: l₁, l₂, by rw [heq, List.cons_append], ?_⟩
      intro b hb
      rcases List.mem_cons.1 hb with rfl | hb'
      · exact Bool.eq_false_iff.2 (fun habs => hc habs)
      · exact hall b hb'

/-! ## Data model

A Table (pandas DataFrame) is modelled by its ordered column names and its
rows of rendered cell values; the Tabular Store is the per-session dict from
table name to table, modelled as an insertion-ordered association list. -/

/-- Model of a pandas DataFrame: ordered column names and rows of rendered
cell values. -/
structure DataFrame where
  columns : List String
  rows : List (List String)
deriving DecidableEq

/-- The per-session Tabular Store: dict from table name to DataFrame,
in insertion order. -/
abbrev TabularStore := List (String × DataFrame)

/-- ASCII single-quote character, as printed by the Python repr of a list of
strings. -/
def sq : String := ⟨[Char.ofNat 39]⟩

/-- Rendering of the f-string interpolation of df.shape: the pair
(row count, column count). -/
def pyShape (df : DataFrame) : String :=
  "(" ++ toString df.rows.length ++ ", " ++ toString df.columns.length ++ ")"

/-- Rendering of the f-string interpolation of list(df.columns): the full,
ordered, untruncated column-name list. -/
def pyColumnsList (cols : List String) : String :=
  "[" ++ joinSep ", " (cols.map fun c => sq ++ c ++ sq) ++ "]"

/-- One markdown table row. -/
def markdownRow (cells : List String) : String :=
  "| " ++ joinSep " | " cells ++ " |"

/-- The markdown header separator row. -/
def markdownFence (cells : List String) : String :=
  "|" ++ joinSep "|" (cells.map fun _ => ":----") ++ "|"

/-- Modelled rendering of pandas DataFrame.to_markdown(index=False) applied to
the given columns and rows. The exact glyphs (pandas pads cells for
alignment) are immaterial to the claims, which only concern which columns and
which rows the preview is computed from. -/
def toMarkdown (columns : List String) (rows : List (List String)) : String :=
  joinSep "\n" (markdownRow columns :: markdownFence columns :: rows.map markdownRow)

/-! ## Table Summarizer (source: summarize_dataframes) -/

/-- Source constant MAX_PREVIEW_ROWS = 5. -/
def MAX_PREVIEW_ROWS : Nat := 5

/-- One loop iteration of summarize_dataframes: the f-string appended to
parts for a single (name, df) entry of the store. -/
def summarize_entry (name : String) (df : DataFrame) : String :=
  "\nDataset: " ++ name ++ "\nShape: " ++ pyShape df ++
    "\nColumns: " ++ pyColumnsList df.columns ++ "\nPreview:\n" ++
    toMarkdown df.columns (df.rows.take MAX_PREVIEW_ROWS) ++ "\n"

/-- Source summarize_dataframes: one part per stored table, joined by a
blank line ("\n\n".join(parts)). -/
def summarize_dataframes (dataframes : TabularStore) : String :=
  joinSep "\n\n" (dataframes.map fun p => summarize_entry p.1 p.2)

/-! ## Guarded Executor (source: execute_code_safely)

CPython exec is an external collaborator: its behaviour on a given code
string is a parameter sem : ExecSem. One run receives the code string, the
local namespace the source builds (local_env = dict with pd and dataframes),
and the current contents of the session dict object bound to dataframes
(Python reference semantics: the binding in the namespace and the session
variable alias one object, so the executed code can mutate it in place).
The run yields the final namespace, the final contents of that dict object,
and the exception it raised, if any; mutations made before a raise persist. -/

/-- Python values that can appear in the execution namespace. The dict value
bound to dataframes in the initial namespace records which names are
visible; the contents of the aliased session object are tracked separately
by the store component of ExecResult. -/
inductive PyValue where
  | none
  | int (n : Int)
  | str (s : String)
  | list (xs : List PyValue)
  | table (df : DataFrame)
  | dict (entries : List (String × PyValue))
  | module (name : String)

/-- A Python local namespace: dict from identifier to value. -/
abbrev PyEnv := List (String × PyValue)

/-- Outcome of one CPython exec run; see the section comment. -/
structure ExecResult where
  env : PyEnv
  store : TabularStore
  raised : Option String

/-- The semantics of CPython exec, as an explicit parameter. -/
abbrev ExecSem := String → PyEnv → TabularStore → ExecResult

/-- The pandas module object bound to pd in the execution namespace. -/
def pdApi : PyValue := PyValue.module "pandas"

/-- The value bound to dataframes: the Tabular Store exposed as a dict from
each table name to its table. -/
def storeValue (dataframes : TabularStore) : PyValue :=
  PyValue.dict (dataframes.map fun p => (p.1, PyValue.table p.2))

/-- Source local_env = dict with keys pd and dataframes: the only bindings
visible to the executed code. -/
def initial_local_env (dataframes : TabularStore) : PyEnv :=
  [("pd", pdApi), ("dataframes", storeValue dataframes)]

/-- The three failure kinds of execute_code_safely; each corresponds to one
raise site of the source (the cause strings are in exec_error_message). -/
inductive ExecError where
  | UnsafeCodeDetected (pattern : String)
  | ExecutionError (cause : String)
  | MissingResult
deriving DecidableEq

/-- str(e) for each failure of execute_code_safely, matching the source
ValueError messages; an ExecutionError carries the message of whatever the
executed code raised. -/
def exec_error_message : ExecError → String
  | ExecError.UnsafeCodeDetected p => "Unsafe code detected: " ++ p
  | ExecError.ExecutionError c => c
  | ExecError.MissingResult => "No result variable produced."

/-- Source forbidden_patterns, in scan order. -/
def forbidden_patterns : List String :=
  ["import", "open(", "exec(", "eval(", "__", "os.", "sys.", "subprocess", "socket"]

/-- The denylist scan loop: the first pattern (in scan order) occurring as a
substring of the code, if any. -/
def denylistScan (code : String) : Option String :=
  forbidden_patterns.find? fun p => containsSubstr p code

/-- Source execute_code_safely: denylist scan, then exec on local_env, then
extraction of the result binding. -/
def execute_code_safely (sem : ExecSem) (code : String) (dataframes : TabularStore) :
    Except ExecError PyValue :=
  match denylistScan code with
  | some p => Except.error (ExecError.UnsafeCodeDetected p)
  | Option.none =>
    let r := sem code (initial_local_env dataframes) dataframes
    match r.raised with
    | some c => Except.error (ExecError.ExecutionError c)
    | Option.none =>
      match r.env.lookup "result" with
      | Option.none => Except.error ExecError.MissingResult
      | some v => Except.ok v

/-- Contents of the session dataframes dict object after a call of
execute_code_safely: unchanged when the scan rejects (exec never runs),
otherwise whatever the exec run left in the aliased object, whether or not
the code raised. -/
def dataframes_after_exec (sem : ExecSem) (code : String) (dataframes : TabularStore) :
    TabularStore :=
  match denylistScan code with
  | some _ => dataframes
  | Option.none => (sem code (initial_local_env dataframes) dataframes).store

/-! ## Upload boundary (source: parse_tabular_file, process_uploaded_files) -/

/-- Raw uploaded file contents, abstract. -/
abbrev Bytes := List Nat

/-- Upload failures: UnsupportedFormat is the ValueError of
parse_tabular_file; ParseError carries the message of a failing
read_csv / read_excel call. -/
inductive UploadError where
  | UnsupportedFormat
  | ParseError (cause : String)
deriving DecidableEq

/-- str(e) for upload failures, matching the source ValueError message. -/
def upload_error_message : UploadError → String
  | UploadError.UnsupportedFormat => "Unsupported file type"
  | UploadError.ParseError c => c

/-- Source parse_tabular_file: dispatch on the lowercased filename suffix;
read_csv and read_excel are the external pandas parsers, passed as
parameters that either yield a DataFrame or fail with a message. -/
def parse_tabular_file (read_csv read_excel : Bytes → Except String DataFrame)
    (file : Bytes) (filename : String) : Except UploadError DataFrame :=
  if strEndsWith (pyLower filename) ".csv" then
    match read_csv file with
    | Except.ok df => Except.ok df
    | Except.error c => Except.error (UploadError.ParseError c)
  else if strEndsWith (pyLower filename) ".xlsx" || strEndsWith (pyLower filename) ".xls" then
    match read_excel file with
    | Except.ok df => Except.ok df
    | Except.error c => Except.error (UploadError.ParseError c)
  else
    Except.error UploadError.UnsupportedFormat

/-- Source test filename.lower().endswith((".csv", ".xlsx", ".xls")). -/
def isTabularName (filename : String) : Bool :=
  strEndsWith (pyLower filename) ".csv" || strEndsWith (pyLower filename) ".xlsx" ||
    strEndsWith (pyLower filename) ".xls"

/-- CPython dict setitem d[k] = v: replace the value of an existing key in
place, else append the new key in insertion order. -/
def dictInsert {α : Type} (d : List (String × α)) (k : String) (v : α) :
    List (String × α) :=
  if d.any (fun p => p.1 == k) then
    d.map fun p => if p.1 == k then (k, v) else p
  else
    d ++ [(k, v)]

/-- CPython dict.update(u): setitem for each entry of u in order. -/
def dictUpdate {α : Type} (d u : List (String × α)) : List (String × α) :=
  u.foldl (fun acc p => dictInsert acc p.1 p.2) d

/-- The five values returned by process_uploaded_files. -/
structure UploadOutcome where
  stored_dfs : List (String × DataFrame)
  stored_docs : List (String × String)
  data_files : List String
  doc_files : List String
  errors : List String
deriving DecidableEq

/-- Source process_uploaded_files: tabular extensions are parsed into
stored_dfs (parse failures become error messages); other files go through
the document extractor (extract_document_text, a parameter returning none
for unrecognized extensions); a missing or empty document text yields the
unsupported-file-type error message. -/
def process_uploaded_files (read_csv read_excel : Bytes → Except String DataFrame)
    (extract_document_text : Bytes → String → Option String)
    (files : List (String × Bytes)) : UploadOutcome :=
  files.foldl
    (fun acc f =>
      if isTabularName f.1 then
        match parse_tabular_file read_csv read_excel f.2 f.1 with
        | Except.ok df =>
          { acc with
            stored_dfs := dictInsert acc.stored_dfs f.1 df
            data_files := acc.data_files ++ [f.1] }
        | Except.error e =>
          { acc with
            errors := acc.errors ++
              ["❌ Error loading " ++ f.1 ++ ": " ++ upload_error_message e] }
      else
        match extract_document_text f.2 f.1 with
        | some text =>
          if text = "" then
            { acc with
              errors := acc.errors ++
                ["⚠️ Unsupported file type: " ++ f.1 ++
                  ". Supported: CSV, XLSX, TXT, PDF, DOCX"] }
          else
            { acc with
              stored_docs := dictInsert acc.stored_docs f.1 text
              doc_files := acc.doc_files ++ [f.1] }
        | Option.none =>
          { acc with
            errors := acc.errors ++
              ["⚠️ Unsupported file type: " ++ f.1 ++
                ". Supported: CSV, XLSX, TXT, PDF, DOCX"] })
    ⟨[], [], [], [], []⟩

/-! ## Completion-service client (sources: create_ollama_client of the chat
agent; generate_response of the email responder) -/

/-- The ollama Client value: endpoint host and HTTP headers. -/
structure Client where
  host : String
  headers : List (String × String)
deriving DecidableEq

/-- Source create_ollama_client: with a credential, attach a bearer
Authorization header; without one, build a plain client (no error, no
message). -/
def create_ollama_client (apiKey : Option String) (url : String) : Client :=
  match apiKey with
  | some k => ⟨url, [("Authorization", "Bearer " ++ k)]⟩
  | Option.none => ⟨url, []⟩

/-- One chat message sent to the completion service. -/
structure Message where
  role : String
  content : String
deriving DecidableEq

/-- The completion-service call, as a parameter: given the client and the
messages, either the reply content or the message of the raised exception. -/
abbrev ChatFn := Client → List Message → Except String String

/-- System prompt of generate_response (email responder). -/
def email_system_prompt : String :=
  "You are a friendly and professional customer service agent. " ++
    "Generate a concise, helpful response to the customer" ++ sq ++ "s email."

/-- Source generate_response (email responder, app.py): an absent credential
yields a configuration-error string before any network call; otherwise the
reply is the stripped chat content, and every raised exception is mapped to
one of four error strings — the function always returns a string, never
propagates an exception. -/
def generate_response (apiKey : Option String) (url : String) (chat : ChatFn)
    (customer_email_body : String) : String :=
  match apiKey with
  | Option.none => "Error: OLLAMA_API_KEY not configured. Please set it in your .env file."
  | some k =>
    let client : Client := ⟨url, [("Authorization", "Bearer " ++ k)]⟩
    match chat client [⟨"system", email_system_prompt⟩, ⟨"user", customer_email_body⟩] with
    | Except.ok content => pyStrip content
    | Except.error msg =>
      if containsSubstr "Connection refused" msg || containsSubstr "ECONNREFUSED" msg then
        "Error: Connection refused. Check internet connectivity and ollama_url."
      else if containsSubstr "401" msg || containsSubstr "Unauthorized" msg then
        "Error: Authentication failed. Check OLLAMA_API_KEY."
      else if containsSubstr "404" msg || containsSubstr "not found" msg then
        "Error: Model " ++ sq ++ "gpt-oss:120b-cloud" ++ sq ++ " not found."
      else
        "Error generating response: " ++ msg

/-! ## Code Generator, Explainer and the Pipeline Orchestrator
(source: generate_analysis_code, the explanation call, and the main
message handler) -/

/-- System prompt of generate_analysis_code. -/
def code_gen_system_prompt : String :=
  "\nYou are a Python data analyst.\nGenerate ONLY valid pandas code.\n" ++
    "Do NOT include explanations.\nDo NOT use import statements.\n" ++
    "Do NOT access files, OS, network, or system.\n" ++
    "Only use the provided dataframes dictionary.\n" ++
    "The dataframes are available as:\n    dataframes[\"filename\"]\n" ++
    "Store final answer in variable: result\n"

/-- The three messages generate_analysis_code sends to the completion
service. -/
def code_gen_messages (question df_summaries : String) : List Message :=
  [⟨"system", code_gen_system_prompt⟩, ⟨"system", df_summaries⟩, ⟨"user", question⟩]

/-- Source generate_analysis_code: one completion call, reply stripped;
a raised service exception propagates (as the error case). -/
def generate_analysis_code (chat : ChatFn) (client : Client)
    (question df_summaries : String) : Except String String :=
  (chat client (code_gen_messages question df_summaries)).map pyStrip

/-- Modelled rendering of CPython str() on a namespace value, used only
inside the explanation prompt; the pipeline claims do not depend on its
exact form. -/
def pyStr : PyValue → String
  | PyValue.none => "None"
  | PyValue.int n => toString n
  | PyValue.str s => s
  | PyValue.list xs => "[list of " ++ toString xs.length ++ " values]"
  | PyValue.table df => toMarkdown df.columns df.rows
  | PyValue.dict es => "[dict of " ++ toString es.length ++ " entries]"
  | PyValue.module n => "[module " ++ n ++ "]"

/-- The explanation prompt built from the question and the computed
result. -/
def explanation_prompt (question : String) (result : PyValue) : String :=
  "\nThe user asked:\n" ++ question ++ "\n\nThe computed result is:\n" ++
    pyStr result ++ "\n\nExplain the answer clearly and concisely.\n" ++
    "Cite dataset names in square brackets.\n"

/-- The single message of the explanation call. -/
def explain_messages (question : String) (result : PyValue) : List Message :=
  [⟨"user", explanation_prompt question result⟩]

/-- System prompt of the plain-chat fallback. -/
def plain_system_prompt : String :=
  "\nYou are a helpful assistant.\nUse only provided context.\n" ++
    "Cite sources in square brackets.\n"

/-- Plain-chat context: one part per enabled static source whose text is
non-empty, then one part per uploaded document with non-empty text, joined by
blank lines — exactly the context_parts loop of the fallback branch. -/
def plain_chat_context (read_source : String → String)
    (active_sources : List (String × Bool))
    (uploaded_docs : List (String × String)) : String :=
  joinSep "\n\n"
    ((active_sources.filterMap fun p =>
        if p.2 then
          if read_source p.1 = "" then Option.none
          else some ("### " ++ p.1 ++ "\n" ++ read_source p.1)
        else Option.none) ++
      (uploaded_docs.filterMap fun p =>
        if p.2 = "" then Option.none
        else some ("### " ++ p.1 ++ "\n" ++ p.2)))

/-- The three messages of the plain-chat completion call. -/
def plain_chat_messages (question context : String) : List Message :=
  [⟨"system", plain_system_prompt⟩, ⟨"system", context⟩, ⟨"user", question⟩]

/-- The error message sent when any data-analysis step raises. The source
appends traceback.format_exc(), an environment-dependent dump omitted from
the model. -/
def data_error_message (cause : String) : String :=
  "❗ Data analysis error:\n" ++ cause ++ "\n\n"

/-- The upload-command feedback message: dataset line, document line, then
the error lines; nothing is sent when all are empty. -/
def upload_feedback_lines (u : UploadOutcome) : List String :=
  (if u.data_files.isEmpty then []
   else ["📊 " ++ toString u.data_files.length ++ " dataset(s) uploaded: " ++
          joinSep ", " u.data_files]) ++
  (if u.doc_files.isEmpty then []
   else ["📄 " ++ toString u.doc_files.length ++ " document(s) uploaded: " ++
          joinSep ", " u.doc_files]) ++
  u.errors

/-- Which component calls a run of the message handler performed, in
order. -/
inductive StepTag where
  | uploadCommand
  | plainChat
  | summarize
  | generate
  | validateExecute
  | explain
deriving DecidableEq

/-- What the handler sent back: a chat message, nothing (the cancelled
upload prompt), or an exception that escaped the handler (only the fallback
branch has no try/except). -/
inductive MainReply where
  | sent (content : String)
  | silent
  | uncaught (cause : String)
deriving DecidableEq

/-- Observable outcome of one run of the message handler: the reply, the
final contents of the session Tabular Store and document store, the
component calls in order, and the completion-service requests in order. -/
structure MainOutcome where
  reply : MainReply
  store : TabularStore
  docs : List (String × String)
  trace : List StepTag
  chatRequests : List (List Message)

/-- Source main (the on_message handler): the /upload command is handled
first (prompting for files — the askFiles parameter — and merging the
parsed uploads into the session stores); otherwise a non-empty Tabular
Store selects Data-Analysis Mode (summarize, generate, validate+execute,
explain, inside one try/except whose handler sends the error message) and
an empty store selects the plain-chat fallback (context from enabled
static sources and uploaded documents, one completion call, no
try/except). -/
def runMain (client : Client) (chat : ChatFn) (sem : ExecSem)
    (read_source : String → String) (askFiles : List (String × Bytes))
    (read_csv read_excel : Bytes → Except String DataFrame)
    (extract_document_text : Bytes → String → Option String)
    (message : String) (dataframes : TabularStore)
    (active_sources : List (String × Bool))
    (uploaded_docs : List (String × String)) : MainOutcome :=
  if pyLower (pyStrip message) = "/upload" then
    if askFiles.isEmpty then
      { reply := MainReply.silent, store := dataframes, docs := uploaded_docs,
        trace := [StepTag.uploadCommand], chatRequests := [] }
    else
      let u := process_uploaded_files read_csv read_excel extract_document_text askFiles
      { reply :=
          if (upload_feedback_lines u).isEmpty then MainReply.silent
          else MainReply.sent (joinSep "\n" (upload_feedback_lines u)),
        store := dictUpdate dataframes u.stored_dfs,
        docs := dictUpdate uploaded_docs u.stored_docs,
        trace := [StepTag.uploadCommand], chatRequests := [] }
  else
    match dataframes with
    | [] =>
      match chat client (plain_chat_messages (pyStrip message)
          (plain_chat_context read_source active_sources uploaded_docs)) with
      | Except.ok content =>
        { reply := MainReply.sent content, store := dataframes, docs := uploaded_docs,
          trace := [StepTag.plainChat],
          chatRequests := [plain_chat_messages (pyStrip message)
            (plain_chat_context read_source active_sources uploaded_docs)] }
      | Except.error e =>
        { reply := MainReply.uncaught e, store := dataframes, docs := uploaded_docs,
          trace := [StepTag.plainChat],
          chatRequests := [plain_chat_messages (pyStrip message)
            (plain_chat_context read_source active_sources uploaded_docs)] }
    | _ :: _ =>
      match generate_analysis_code chat client (pyStrip message)
          (summarize_dataframes dataframes) with
      | Except.error e =>
        { reply := MainReply.sent (data_error_message e), store := dataframes,
          docs := uploaded_docs,
          trace := [StepTag.summarize, StepTag.generate],
          chatRequests := [code_gen_messages (pyStrip message)
            (summarize_dataframes dataframes)] }
      | Except.ok code =>
        match execute_code_safely sem code dataframes with
        | Except.error err =>
          { reply := MainReply.sent (data_error_message (exec_error_message err)),
            store := dataframes_after_exec sem code dataframes, docs := uploaded_docs,
            trace := [StepTag.summarize, StepTag.generate, StepTag.validateExecute],
            chatRequests := [code_gen_messages (pyStrip message)
              (summarize_dataframes dataframes)] }
        | Except.ok result =>
          match chat client (explain_messages (pyStrip message) result) with
          | Except.error e =>
            { reply := MainReply.sent (data_error_message e),
              store := dataframes_after_exec sem code dataframes, docs := uploaded_docs,
              trace := [StepTag.summarize, StepTag.generate, StepTag.validateExecute,
                StepTag.explain],
              chatRequests := [code_gen_messages (pyStrip message)
                (summarize_dataframes dataframes),
                explain_messages (pyStrip message) result] }
          | Except.ok explanation =>
            { reply := MainReply.sent explanation,
              store := dataframes_after_exec sem code dataframes, docs := uploaded_docs,
              trace := [StepTag.summarize, StepTag.generate, StepTag.validateExecute,
                StepTag.explain],
              chatRequests := [code_gen_messages (pyStrip message)
                (summarize_dataframes dataframes),
                explain_messages (pyStrip message) result] }

/-! ## Concrete fixtures used by witnesses and counterexamples -/

/-- The sales.csv demo table of the spec scenario. -/
def df0 : DataFrame :=
  ⟨["region", "amount"], [["north", "10"], ["south", "20"]]⟩

/-- A one-table store holding sales.csv. -/
def demoStore : TabularStore := [("sales.csv", df0)]

/-- An empty table. -/
def emptyDf : DataFrame := ⟨[], []⟩

/-- Exec semantics of a run that binds nothing, mutates nothing and raises
nothing (e.g. the code string "x = 1"). -/
def skipSem : ExecSem := fun _ env st => ⟨env, st, Option.none⟩

/-- Exec semantics of the code string "result = 1": binds result to 1,
touches nothing else. -/
def resultSem : ExecSem := fun _ env st =>
  ⟨env ++ [("result", PyValue.int 1)], st, Option.none⟩

/-- Exec semantics of the code string "result = None": binds result to None,
touches nothing else. -/
def noneResultSem : ExecSem := fun _ env st =>
  ⟨env ++ [("result", PyValue.none)], st, Option.none⟩

/-- A completion service that always replies "ok". -/
def okChat : ChatFn := fun _ _ => Except.ok "ok"

/-- A completion service whose calls always raise. -/
def errChat : ChatFn := fun _ _ => Except.error "service unreachable"

/-- A csv parser stub that always yields the demo table. -/
def stubCsv : Bytes → Except String DataFrame := fun _ => Except.ok df0

/-- An excel parser stub that always yields the demo table. -/
def stubExcel : Bytes → Except String DataFrame := fun _ => Except.ok df0

/-- A document extractor stub recognizing nothing. -/
def stubDoc : Bytes → String → Option String := fun _ _ => Option.none

/-- The client built with no credential against the default local endpoint. -/
def defaultClient : Client := create_ollama_client Option.none "http://localhost:11434"

/-! ## Claim C1: the denylist scan -/

/-- C1: the denylist scan raises UnsafeCodeDetected(p) iff the code contains
at least one denylisted substring, p being the first matching pattern in the
fixed scan order (the source list, asserted verbatim in the first conjunct);
when it raises, the code is never executed — the outcome is independent of
the exec semantics and the store is untouched — and code containing no
denylisted substring passes the scan. -/
theorem denylist_scan_spec (code : String) (store : TabularStore) :
    forbidden_patterns =
      ["import", "open(", "exec(", "eval(", "__", "os.", "sys.", "subprocess", "socket"]
    ∧ ((∃ p ∈ forbidden_patterns, containsSubstr p code = true) ↔
        ∃ p, denylistScan code = some p)
    ∧ (∀ p, denylistScan code = some p →
        containsSubstr p code = true
        ∧ (∃ l₁ l₂, forbidden_patterns = l₁ ++ p :: l₂ ∧
            ∀ q ∈ l₁, containsSubstr q code = false)
        ∧ (∀ sem, execute_code_safely sem code store =
            Except.error (ExecError.UnsafeCodeDetected p))
        ∧ (∀ sem sem',
            execute_code_safely sem code store = execute_code_safely sem' code store)
        ∧ (∀ sem, dataframes_after_exec sem code store = store))
    ∧ (denylistScan code = Option.none →
        ∀ sem p, execute_code_safely sem code store ≠
          Except.error (ExecError.UnsafeCodeDetected p)) := by
  refine ⟨rfl, ?_, ?_, ?_⟩
  · constructor
    · rintro ⟨p, hp, hc⟩
      cases h : denylistScan code with
      | some q => exact ⟨q, rfl⟩
      | none =>
        rw [denylistScan, List.find?_eq_none] at h
        exact absurd hc (h p hp)
    · rintro ⟨p, hp⟩
      obtain ⟨hf, l₁, l₂, heq, -⟩ := find?_split _ _ _ hp
      exact ⟨p, by rw [heq]; exact List.mem_append_right _ (List.mem_cons_self _ _), hf⟩
  · intro p hp
    obtain ⟨hf, l₁, l₂, heq, hall⟩ := find?_split _ _ _ hp
    refine ⟨hf, ⟨l₁, l₂, heq, hall⟩, ?_, ?_, ?_⟩
    · intro sem
      simp [execute_code_safely, hp]
    · intro sem sem'
      simp [execute_code_safely, hp]
    · intro sem
      simp [dataframes_after_exec, hp]
  · intro hnone sem p
    simp only [execute_code_safely, hnone]
    cases h1 : (sem code (initial_local_env store) store).raised with
    | some c => simp
    | none =>
      cases h2 : (sem code (initial_local_env store) store).env.lookup "result" with
      | some v => simp
      | none => simp

/-- C1 witness: the literal text import pandas is rejected with pattern
import, before any execution; code with no denylisted substring is not
rejected by the scan. -/
theorem denylist_scan_spec_witness :
    execute_code_safely skipSem "import pandas" demoStore =
      Except.error (ExecError.UnsafeCodeDetected "import")
    ∧ execute_code_safely skipSem "dataframes[\"x\"].sum()" demoStore ≠
      Except.error (ExecError.UnsafeCodeDetected "import") :=
  ⟨((denylist_scan_spec "import pandas" demoStore).2.2.1 "import" (by decide)).2.2.1 skipSem,
   (denylist_scan_spec "dataframes[\"x\"].sum()" demoStore).2.2.2 (by decide) skipSem "import"⟩

/-! ## Claim C3: result extraction -/

/-- C3: for code that passes the scan and executes without raising, a
missing result binding fails with MissingResult, and a present binding is
returned verbatim. -/
theorem result_extraction_spec (sem : ExecSem) (code : String) (store : TabularStore)
    (hscan : denylistScan code = Option.none)
    (hrun : (sem code (initial_local_env store) store).raised = Option.none) :
    ((sem code (initial_local_env store) store).env.lookup "result" = Option.none →
      execute_code_safely sem code store = Except.error ExecError.MissingResult)
    ∧ ∀ v, (sem code (initial_local_env store) store).env.lookup "result" = some v →
        execute_code_safely sem code store = Except.ok v := by
  constructor
  · intro hmiss
    simp [execute_code_safely, hscan, hrun, hmiss]
  · intro v hv
    simp [execute_code_safely, hscan, hrun, hv]

/-- C3 witness: the code string result = 1 returns 1 when its run binds
result, and fails with MissingResult when the run binds nothing. -/
theorem result_extraction_spec_witness :
    execute_code_safely resultSem "result = 1" demoStore = Except.ok (PyValue.int 1)
    ∧ execute_code_safely skipSem "result = 1" demoStore =
        Except.error ExecError.MissingResult :=
  ⟨(result_extraction_spec resultSem "result = 1" demoStore (by decide) rfl).2
      (PyValue.int 1) rfl,
   (result_extraction_spec skipSem "result = 1" demoStore (by decide) rfl).1 rfl⟩

/-! ## Claim C10: the result value is returned verbatim, whatever it is -/

/-- C10: MissingResult depends only on the presence of the result binding:
any bound value — None and empty containers included — is returned as-is. -/
theorem result_verbatim_spec (sem : ExecSem) (code : String) (store : TabularStore)
    (v : PyValue) (hscan : denylistScan code = Option.none)
    (hrun : (sem code (initial_local_env store) store).raised = Option.none)
    (hbind : (sem code (initial_local_env store) store).env.lookup "result" = some v) :
    execute_code_safely sem code store = Except.ok v := by
  simp [execute_code_safely, hscan, hrun, hbind]

/-- C10 witness: the code string result = None returns the value None, not
MissingResult. -/
theorem result_verbatim_spec_witness :
    execute_code_safely noneResultSem "result = None" demoStore =
      Except.ok PyValue.none :=
  result_verbatim_spec noneResultSem "result = None" demoStore PyValue.none
    (by decide) rfl rfl

/-! ## Claim C4: the execution environment -/

/-- C4: the namespace handed to the executed code holds exactly the two
bindings pd (the dataframe API) and dataframes (the stored tables under
their original names, through one dict), no others; and the executor
consults the exec semantics only at that namespace, so nothing else is
visible to the executed code. -/
theorem execution_env_spec (store : TabularStore) :
    (initial_local_env store).map Prod.fst = ["pd", "dataframes"]
    ∧ (initial_local_env store).lookup "pd" = some pdApi
    ∧ (initial_local_env store).lookup "dataframes" =
        some (PyValue.dict (store.map fun p => (p.1, PyValue.table p.2)))
    ∧ (∀ x, x ≠ "pd" → x ≠ "dataframes" →
        (initial_local_env store).lookup x = Option.none)
    ∧ (∀ code sem sem',
        sem code (initial_local_env store) store =
          sem' code (initial_local_env store) store →
        execute_code_safely sem code store = execute_code_safely sem' code store) := by
  refine ⟨rfl, rfl, rfl, ?_, ?_⟩
  · intro x h1 h2
    have e1 : (x == ("pd" : String)) = false := beq_eq_false_iff_ne.mpr h1
    have e2 : (x == ("dataframes" : String)) = false := beq_eq_false_iff_ne.mpr h2
    simp [initial_local_env, List.lookup, e1, e2]
  · intro code sem sem' h
    cases hscan : denylistScan code with
    | some p => simp [execute_code_safely, hscan]
    | none => simp [execute_code_safely, hscan, h]

/-- C4 witness: in the demo store, an outer name is invisible, and two exec
semantics agreeing on the initial namespace yield the same outcome. -/
theorem execution_env_spec_witness :
    (initial_local_env demoStore).lookup "secret" = Option.none
    ∧ execute_code_safely skipSem "result = 1" demoStore =
        execute_code_safely skipSem "result = 1" demoStore :=
  ⟨(execution_env_spec demoStore).2.2.2.1 "secret" (by decide) (by decide),
   (execution_env_spec demoStore).2.2.2.2 "result = 1" skipSem skipSem rfl⟩

/-! ## Claim C6: summarizer content -/

/-- C6: an empty store summarizes to empty text; for a non-empty store the
summary contains, for every stored table, its name, its row/column count,
its full ordered column-name list, and the preview of its first 5 rows. -/
theorem summarizer_content_spec (store : TabularStore) :
    summarize_dataframes [] = ""
    ∧ ∀ name df, (name, df) ∈ store →
        Substr name (summarize_dataframes store)
        ∧ Substr (pyShape df) (summarize_dataframes store)
        ∧ Substr (pyColumnsList df.columns) (summarize_dataframes store)
        ∧ Substr (toMarkdown df.columns (df.rows.take MAX_PREVIEW_ROWS))
            (summarize_dataframes store) := by
  refine ⟨rfl, ?_⟩
  intro name df hmem
  have hentry : summarize_entry name df ∈ store.map fun p => summarize_entry p.1 p.2 :=
    List.mem_map.2 ⟨(name, df), hmem, rfl⟩
  have hjoin : Substr (summarize_entry name df) (summarize_dataframes store) :=
    substr_join "\n\n" hentry
  have hname : Substr name (summarize_entry name df) := by
    unfold summarize_entry
    exact substr_appendR _ (substr_appendR _ (substr_appendR _ (substr_appendR _
      (substr_appendR _ (substr_appendR _ (substr_appendR _
        (substr_appendL _ (substr_self name))))))))
  have hshape : Substr (pyShape df) (summarize_entry name df) := by
    unfold summarize_entry
    exact substr_appendR _ (substr_appendR _ (substr_appendR _ (substr_appendR _
      (substr_appendR _ (substr_appendL _ (substr_self (pyShape df)))))))
  have hcols : Substr (pyColumnsList df.columns) (summarize_entry name df) := by
    unfold summarize_entry
    exact substr_appendR _ (substr_appendR _ (substr_appendR _
      (substr_appendL _ (substr_self (pyColumnsList df.columns)))))
  have hprev : Substr (toMarkdown df.columns (df.rows.take MAX_PREVIEW_ROWS))
      (summarize_entry name df) := by
    unfold summarize_entry
    exact substr_appendR _
      (substr_appendL _ (substr_self (toMarkdown df.columns (df.rows.take MAX_PREVIEW_ROWS))))
  obtain ⟨l₁, r₁, h₁⟩ := hjoin
  refine ⟨?_, ?_, ?_, ?_⟩
  · obtain ⟨l₂, r₂, h₂⟩ := hname
    exact ⟨l₁ ++ l₂, r₂ ++ r₁, by rw [h₁, h₂]; simp⟩
  · obtain ⟨l₂, r₂, h₂⟩ := hshape
    exact ⟨l₁ ++ l₂, r₂ ++ r₁, by rw [h₁, h₂]; simp⟩
  · obtain ⟨l₂, r₂, h₂⟩ := hcols
    exact ⟨l₁ ++ l₂, r₂ ++ r₁, by rw [h₁, h₂]; simp⟩
  · obtain ⟨l₂, r₂, h₂⟩ := hprev
    exact ⟨l₁ ++ l₂, r₂ ++ r₁, by rw [h₁, h₂]; simp⟩

/-- C6 witness: the demo summary contains the table name sales.csv and its
full column list. -/
theorem summarizer_content_spec_witness :
    Substr "sales.csv" (summarize_dataframes demoStore)
    ∧ Substr (pyColumnsList df0.columns) (summarize_dataframes demoStore) :=
  ⟨((summarizer_content_spec demoStore).2 "sales.csv" df0 (by decide)).1,
   ((summarizer_content_spec demoStore).2 "sales.csv" df0 (by decide)).2.2.1⟩

/-! ## Claim C7: summarizer determinism, idempotence, purity -/

/-- C7: the summarizer is deterministic and idempotent — on an unchanged
store two runs yield identical text — and it performs no mutation: a
pipeline run that stops right after the summarize step (its generation call
raises) leaves the session store exactly as it was, having only read it. -/
theorem summarizer_pure_spec :
    (∀ s : TabularStore, summarize_dataframes s = summarize_dataframes s)
    ∧ (∀ s t : TabularStore, s = t →
        summarize_dataframes s = summarize_dataframes t)
    ∧ (∀ (client : Client) (chat : ChatFn) (sem : ExecSem)
        (read_source : String → String) (askFiles : List (String × Bytes))
        (read_csv read_excel : Bytes → Except String DataFrame)
        (edt : Bytes → String → Option String) (msg : String)
        (store : TabularStore) (sources : List (String × Bool))
        (docs : List (String × String)) (e : String),
        pyLower (pyStrip msg) ≠ "/upload" → store ≠ [] →
        chat client (code_gen_messages (pyStrip msg) (summarize_dataframes store)) =
          Except.error e →
        (runMain client chat sem read_source askFiles read_csv read_excel edt
            msg store sources docs).store = store
        ∧ (runMain client chat sem read_source askFiles read_csv read_excel edt
            msg store sources docs).trace = [StepTag.summarize, StepTag.generate]) := by
  refine ⟨fun s => rfl, fun s t h => by rw [h], ?_⟩
  intro client chat sem read_source askFiles read_csv read_excel edt msg store
    sources docs e hup hne hchat
  obtain ⟨p, rest, rfl⟩ : ∃ p rest, store = p :: rest := by
    cases store with
    | nil => exact absurd rfl hne
    | cons p rest => exact ⟨p, rest, rfl⟩
  constructor <;>
    simp [runMain, hup, generate_analysis_code, hchat, Except.map]

/-- C7 witness: with a failing generation call over the demo store, the run
stops after summarize and generate and the store is unchanged. -/
theorem summarizer_pure_spec_witness :
    (runMain defaultClient errChat skipSem (fun _ => "") [] stubCsv stubExcel
      stubDoc "question" demoStore [] []).store = demoStore :=
  (summarizer_pure_spec.2.2 defaultClient errChat skipSem (fun _ => "") []
    stubCsv stubExcel stubDoc "question" demoStore [] [] "service unreachable"
    (by decide) (by decide) rfl).1

/-! ## Claim C2: does the pipeline ever mutate the Tabular Store?

The executed generated code receives the session dataframes dict by
reference, so a generated program that writes through that dict mutates the
session store in place; nothing in the pipeline restores it. The code below
exhibits such a run. -/

/-- A generated program that passes the denylist scan, runs successfully,
and mutates the store: it adds a key to the shared dataframes dict. -/
def mutCode : String := "dataframes[\"extra\"] = pd.DataFrame()\nresult = 0"

/-- Semantics of CPython exec on mutCode: setitem on the shared dataframes
dict object adds the key extra, and result is bound to 0; no exception.
Any other code string is treated as a no-op run. -/
def mutSem : ExecSem := fun code env st =>
  if code = mutCode then
    ⟨env ++ [("result", PyValue.int 0)], st ++ [("extra", emptyDf)], Option.none⟩
  else
    ⟨env, st, Option.none⟩

/-- A completion service whose generation call (three messages) returns
mutCode and whose explanation call (one message) returns a normal answer. -/
def mutChat : ChatFn := fun _ msgs =>
  if msgs.length = 3 then Except.ok mutCode else Except.ok "Done."

/-- C2 counterexample: a Data-Analysis-Mode run over the one-table demo
store whose generated code is mutCode finishes successfully, yet the
session Tabular Store afterwards differs from the store before the run —
the pipeline does not leave the store unchanged. -/
theorem store_mutation_counterexample :
    (runMain defaultClient mutChat mutSem (fun _ => "") [] stubCsv stubExcel
        stubDoc "what is the total amount" demoStore [] []).store ≠ demoStore
    ∧ (runMain defaultClient mutChat mutSem (fun _ => "") [] stubCsv stubExcel
        stubDoc "what is the total amount" demoStore [] []).reply =
      MainReply.sent "Done." := by
  constructor
  · intro h
    have h' : demoStore ++ [("extra", emptyDf)] = demoStore := h
    simp at h'
  · rfl

/-- Helper: when the exec run leaves the dataframes dict object unchanged,
the dict after execute_code_safely equals the dict before. -/
theorem after_exec_preserve (sem : ExecSem) (code : String) (store : TabularStore)
    (hsem : ∀ code' env st, (sem code' env st).store = st) :
    dataframes_after_exec sem code store = store := by
  cases hscan : denylistScan code with
  | some p => simp [dataframes_after_exec, hscan]
  | none => simp [dataframes_after_exec, hscan, hsem]

/-- C2 amended: the pipeline itself performs no store mutation — whenever
the executed generated code leaves the dataframes dict object unchanged
(in particular whenever execution is never reached, because the scan
rejects or generation fails), a Data-Analysis-Mode run leaves the Tabular
Store identical, whether the run succeeds or any step fails; only the
executed code can mutate the store, as the counterexample shows. -/
theorem store_mutation_amended (client : Client) (chat : ChatFn) (sem : ExecSem)
    (read_source : String → String) (askFiles : List (String × Bytes))
    (read_csv read_excel : Bytes → Except String DataFrame)
    (edt : Bytes → String → Option String) (msg : String) (store : TabularStore)
    (sources : List (String × Bool)) (docs : List (String × String))
    (hup : pyLower (pyStrip msg) ≠ "/upload") (hne : store ≠ [])
    (hsem : ∀ code env st, (sem code env st).store = st) :
    (runMain client chat sem read_source askFiles read_csv read_excel edt
      msg store sources docs).store = store := by
  obtain ⟨p, rest, rfl⟩ : ∃ p rest, store = p :: rest := by
    cases store with
    | nil => exact absurd rfl hne
    | cons p rest => exact ⟨p, rest, rfl⟩
  simp only [runMain, hup, if_false, reduceIte]
  cases hgen : generate_analysis_code chat client (pyStrip msg)
      (summarize_dataframes (p :: rest)) with
  | error e => rfl
  | ok code =>
    cases hexec : execute_code_safely sem code (p :: rest) with
    | error err =>
      simp only [hexec]
      exact after_exec_preserve sem code (p :: rest) hsem
    | ok result =>
      simp only [hexec]
      cases hchat : chat client (explain_messages (pyStrip msg) result) with
      | error e =>
        simp only [hchat]
        exact after_exec_preserve sem code (p :: rest) hsem
      | ok explanation =>
        simp only [hchat]
        exact after_exec_preserve sem code (p :: rest) hsem

/-- C2 amended witness: a run whose executed code does not write through the
dataframes dict leaves the demo store unchanged. -/
theorem store_mutation_amended_witness :
    (runMain defaultClient okChat resultSem (fun _ => "") [] stubCsv stubExcel
      stubDoc "what is the total amount" demoStore [] []).store = demoStore :=
  store_mutation_amended defaultClient okChat resultSem (fun _ => "") []
    stubCsv stubExcel stubDoc "what is the total amount" demoStore [] []
    (by decide) (by decide) (fun _ _ _ => rfl)

/-! ## Claim C5: mode selection

The handler intercepts the upload command before mode selection: the trimmed,
lowercased message /upload triggers the file-upload flow even when the store
is empty, so an empty store does not imply Plain-Chat Mode for every message
content. For every other message the claimed mode selection holds. -/

/-- C5 counterexample: with an empty Tabular Store, the incoming message
/upload does not run Plain-Chat Mode and performs zero completion-service
calls (the claim requires Plain-Chat Mode with exactly one call regardless
of question content). -/
theorem mode_selection_counterexample :
    (runMain defaultClient okChat skipSem (fun _ => "") [] stubCsv stubExcel
        stubDoc "/upload" [] [] []).trace = [StepTag.uploadCommand]
    ∧ (runMain defaultClient okChat skipSem (fun _ => "") [] stubCsv stubExcel
        stubDoc "/upload" [] [] []).trace ≠ [StepTag.plainChat]
    ∧ (runMain defaultClient okChat skipSem (fun _ => "") [] stubCsv stubExcel
        stubDoc "/upload" [] [] []).chatRequests = [] := by
  refine ⟨rfl, ?_, rfl⟩
  intro h
  have h' : [StepTag.uploadCommand] = [StepTag.plainChat] := h
  simp at h'

/-- C5 amended: for every incoming message other than the upload command
(trimmed, lowercased /upload), an empty Tabular Store selects Plain-Chat
Mode regardless of question content — one completion call whose context is
built from the enabled static sources and uploaded documents, no summarize,
generate or execute step, store untouched — and a non-empty store selects
Data-Analysis Mode, whose steps run in the order summarize, generate,
validate+execute, explain, each later step running only if the earlier ones
succeeded. -/
theorem mode_selection_amended (client : Client) (chat : ChatFn) (sem : ExecSem)
    (read_source : String → String) (askFiles : List (String × Bytes))
    (read_csv read_excel : Bytes → Except String DataFrame)
    (edt : Bytes → String → Option String) (msg : String) (store : TabularStore)
    (sources : List (String × Bool)) (docs : List (String × String))
    (hup : pyLower (pyStrip msg) ≠ "/upload") :
    (store = [] →
      (runMain client chat sem read_source askFiles read_csv read_excel edt
          msg store sources docs).trace = [StepTag.plainChat]
      ∧ (runMain client chat sem read_source askFiles read_csv read_excel edt
          msg store sources docs).chatRequests =
        [plain_chat_messages (pyStrip msg)
          (plain_chat_context read_source sources docs)]
      ∧ (runMain client chat sem read_source askFiles read_csv read_excel edt
          msg store sources docs).store = store)
    ∧ (store ≠ [] → ∃ n, 2 ≤ n ∧
        (runMain client chat sem read_source askFiles read_csv read_excel edt
            msg store sources docs).trace =
          [StepTag.summarize, StepTag.generate, StepTag.validateExecute,
            StepTag.explain].take n) := by
  constructor
  · rintro rfl
    simp only [runMain, hup, if_false, reduceIte]
    cases hchat : chat client (plain_chat_messages (pyStrip msg)
        (plain_chat_context read_source sources docs)) with
    | ok content => exact ⟨rfl, rfl, rfl⟩
    | error e => exact ⟨rfl, rfl, rfl⟩
  · intro hne
    obtain ⟨p, rest, rfl⟩ : ∃ p rest, store = p :: rest := by
      cases store with
      | nil => exact absurd rfl hne
      | cons p rest => exact ⟨p, rest, rfl⟩
    simp only [runMain, hup, if_false, reduceIte]
    cases hgen : generate_analysis_code chat client (pyStrip msg)
        (summarize_dataframes (p :: rest)) with
    | error e => exact ⟨2, by norm_num, rfl⟩
    | ok code =>
      cases hexec : execute_code_safely sem code (p :: rest) with
      | error err =>
        simp only [hexec]
        exact ⟨3, by norm_num, rfl⟩
      | ok result =>
        simp only [hexec]
        cases hchat : chat client (explain_messages (pyStrip msg) result) with
        | error e =>
          simp only [hchat]
          exact ⟨4, by norm_num, rfl⟩
        | ok explanation =>
          simp only [hchat]
          exact ⟨4, by norm_num, rfl⟩

/-- C5 amended witness: an ordinary message over an empty store runs
Plain-Chat Mode with one completion call; over the demo store it runs all
four data-analysis steps in order. -/
theorem mode_selection_amended_witness :
    (runMain defaultClient okChat resultSem (fun _ => "") [] stubCsv stubExcel
        stubDoc "hello" [] [] []).trace = [StepTag.plainChat]
    ∧ ∃ n, 2 ≤ n ∧
        (runMain defaultClient okChat resultSem (fun _ => "") [] stubCsv stubExcel
            stubDoc "hello" demoStore [] []).trace =
          [StepTag.summarize, StepTag.generate, StepTag.validateExecute,
            StepTag.explain].take n :=
  ⟨((mode_selection_amended defaultClient okChat resultSem (fun _ => "") []
      stubCsv stubExcel stubDoc "hello" [] [] [] (by decide)).1 rfl).1,
   (mode_selection_amended defaultClient okChat resultSem (fun _ => "") []
      stubCsv stubExcel stubDoc "hello" demoStore [] [] (by decide)).2 (by decide)⟩

/-! ## Claim C8: upload dispatch -/

/-- A string cannot end both in .csv and in .xlsx or .xls: the final
characters differ. -/
theorem csv_excel_exclusive (s : String)
    (h : strEndsWith s ".xlsx" = true ∨ strEndsWith s ".xls" = true) :
    strEndsWith s ".csv" = false := by
  rcases h with hx | hx
  · by_contra habs
    have hcsv : strEndsWith s ".csv" = true := by
      cases hc : strEndsWith s ".csv" with
      | true => rfl
      | false => exact absurd hc habs
    obtain ⟨t1, h1⟩ := (strEndsWith_iff s ".csv").1 hcsv
    obtain ⟨t2, h2⟩ := (strEndsWith_iff s ".xlsx").1 hx
    have h12 : t1 ++ (".csv".toList) = t2 ++ (".xlsx".toList) := by
      rw [← h1, ← h2]
    have hrev := congrArg List.reverse h12
    rw [List.reverse_append, List.reverse_append] at hrev
    have e1 : (".csv".toList).reverse = ['v', 's', 'c', '.'] := rfl
    have e2 : (".xlsx".toList).reverse = ['x', 's', 'l', 'x', '.'] := rfl
    rw [e1, e2] at hrev
    simp only [List.cons_append, List.nil_append] at hrev
    injection hrev with hhead _
    exact absurd hhead (by decide)
  · by_contra habs
    have hcsv : strEndsWith s ".csv" = true := by
      cases hc : strEndsWith s ".csv" with
      | true => rfl
      | false => exact absurd hc habs
    obtain ⟨t1, h1⟩ := (strEndsWith_iff s ".csv").1 hcsv
    obtain ⟨t2, h2⟩ := (strEndsWith_iff s ".xls").1 hx
    have h12 : t1 ++ (".csv".toList) = t2 ++ (".xls".toList) := by
      rw [← h1, ← h2]
    have hrev := congrArg List.reverse h12
    rw [List.reverse_append, List.reverse_append] at hrev
    have e1 : (".csv".toList).reverse = ['v', 's', 'c', '.'] := rfl
    have e2 : (".xls".toList).reverse = ['s', 'l', 'x', '.'] := rfl
    rw [e1, e2] at hrev
    simp only [List.cons_append, List.nil_append] at hrev
    injection hrev with hhead _
    exact absurd hhead (by decide)

/-- C8: an upload whose (lowercased) filename extension is none of .csv,
.xlsx, .xls fails the tabular parse with UnsupportedFormat, contributes no
entry to the parsed dataframes, and leaves the session Tabular Store
unchanged after the session update; a .csv extension dispatches to the
delimited-text parser and a .xlsx or .xls extension dispatches to the
spreadsheet parser, their failures becoming ParseError. -/
theorem upload_dispatch_spec (read_csv read_excel : Bytes → Except String DataFrame)
    (edt : Bytes → String → Option String) (filename : String) (file : Bytes)
    (store : TabularStore) :
    (isTabularName filename = false →
      parse_tabular_file read_csv read_excel file filename =
        Except.error UploadError.UnsupportedFormat
      ∧ (process_uploaded_files read_csv read_excel edt [(filename, file)]).stored_dfs = []
      ∧ dictUpdate store
          (process_uploaded_files read_csv read_excel edt [(filename, file)]).stored_dfs =
        store)
    ∧ (strEndsWith (pyLower filename) ".csv" = true →
      parse_tabular_file read_csv read_excel file filename =
        Except.mapError UploadError.ParseError (read_csv file))
    ∧ ((strEndsWith (pyLower filename) ".xlsx" = true ∨
        strEndsWith (pyLower filename) ".xls" = true) →
      parse_tabular_file read_csv read_excel file filename =
        Except.mapError UploadError.ParseError (read_excel file)) := by
  refine ⟨?_, ?_, ?_⟩
  · intro h
    have hcsv : strEndsWith (pyLower filename) ".csv" = false := by
      simp only [isTabularName, Bool.or_eq_false_iff] at h
      exact h.1.1
    have hxlsx : strEndsWith (pyLower filename) ".xlsx" = false := by
      simp only [isTabularName, Bool.or_eq_false_iff] at h
      exact h.1.2
    have hxls : strEndsWith (pyLower filename) ".xls" = false := by
      simp only [isTabularName, Bool.or_eq_false_iff] at h
      exact h.2
    refine ⟨by simp [parse_tabular_file, hcsv, hxlsx, hxls], ?_, ?_⟩
    · simp only [process_uploaded_files, List.foldl, h, Bool.false_eq_true, if_false,
        reduceIte]
      cases hdoc : edt file filename with
      | some text =>
        by_cases ht : text = "" <;> simp [ht]
      | none => simp
    · have hdfs :
          (process_uploaded_files read_csv read_excel edt [(filename, file)]).stored_dfs =
            [] := by
        simp only [process_uploaded_files, List.foldl, h, Bool.false_eq_true, if_false,
          reduceIte]
        cases hdoc : edt file filename with
        | some text =>
          by_cases ht : text = "" <;> simp [ht]
        | none => simp
      rw [hdfs]
      rfl
  · intro h
    simp only [parse_tabular_file, h, if_true, reduceIte]
    cases read_csv file <;> rfl
  · intro h
    have hcsv : strEndsWith (pyLower filename) ".csv" = false := csv_excel_exclusive _ h
    have hor : (strEndsWith (pyLower filename) ".xlsx" ||
        strEndsWith (pyLower filename) ".xls") = true := by
      rcases h with hx | hx <;> simp [hx]
    simp only [parse_tabular_file, hcsv, hor, Bool.false_eq_true, if_false, if_true,
      reduceIte]
    cases read_excel file <;> rfl

/-- C8 witness: a .txt upload fails the tabular parse with UnsupportedFormat
and leaves the demo store unchanged; a .csv filename dispatches to the
delimited-text parser and an .xlsx filename to the spreadsheet parser. -/
theorem upload_dispatch_spec_witness :
    parse_tabular_file stubCsv stubExcel [] "report.txt" =
      Except.error UploadError.UnsupportedFormat
    ∧ dictUpdate demoStore
        (process_uploaded_files stubCsv stubExcel stubDoc [("report.txt", [])]).stored_dfs =
      demoStore
    ∧ parse_tabular_file stubCsv stubExcel [] "data.CSV" =
      Except.mapError UploadError.ParseError (stubCsv [])
    ∧ parse_tabular_file stubCsv stubExcel [] "data.xlsx" =
      Except.mapError UploadError.ParseError (stubExcel []) :=
  ⟨((upload_dispatch_spec stubCsv stubExcel stubDoc "report.txt" [] demoStore).1
      (by decide)).1,
   ((upload_dispatch_spec stubCsv stubExcel stubDoc "report.txt" [] demoStore).1
      (by decide)).2.2,
   (upload_dispatch_spec stubCsv stubExcel stubDoc "data.CSV" [] demoStore).2.1
      (by decide),
   (upload_dispatch_spec stubCsv stubExcel stubDoc "data.xlsx" [] demoStore).2.2
      (Or.inl (by decide))⟩

/-! ## Claim C9: credential absence

Only the email-responder boundary (generate_response) surfaces an absent
credential; the chat agent builds a credential-less client silently and a
pipeline run with no credential can complete with a normal answer and no
configuration-error message. -/

/-- C9 counterexample: a pipeline run of the chat agent with the credential
absent from configuration surfaces no configuration error: the client is
built without an Authorization header, and the run replies with the
ordinary chat answer, which mentions no error. -/
theorem credential_counterexample :
    (create_ollama_client Option.none "http://localhost:11434").headers = []
    ∧ (runMain (create_ollama_client Option.none "http://localhost:11434")
        (fun _ _ => Except.ok "The total is 30.") skipSem (fun _ => "") []
        stubCsv stubExcel stubDoc "what is the total" [] [] []).reply =
      MainReply.sent "The total is 30."
    ∧ containsSubstr "Error" "The total is 30." = false := by
  refine ⟨rfl, rfl, by decide⟩

/-- C9 amended: in the email-responder boundary (generate_response) an
absent credential is surfaced to the user as the configuration-error
message and the call returns normally instead of crashing; the chat-agent
variant merely builds its client without an Authorization header and
surfaces nothing. -/
theorem credential_amended (url : String) (chat : ChatFn) (body : String) :
    generate_response Option.none url chat body =
      "Error: OLLAMA_API_KEY not configured. Please set it in your .env file."
    ∧ (create_ollama_client Option.none url).headers = [] :=
  ⟨rfl, rfl⟩

end RetailAgent








